import Mathlib

/-!
Verification of the block-ingestion and caching core of lightwalletd
(package `common`, file `common.go`), shallowly embedded in Lean 4.

Pure data (compact blocks, transactions) is embedded as Lean structures;
the RPC interface, the external block parser and the mockable globals
(`RawRequest`, `DarksideEnabled`) are embedded as explicit environment
parameters; Go functions that can fail are embedded as functions into a
result type `GoResult` that distinguishes a returned error from a runtime
panic; the stateful cache and ingestor are embedded with explicit state
passing.
-/

namespace Lightwalletd

/-! ## Compact-block data model (walletrpc protobuf messages, as used here) -/

/-- walletrpc `CompactSaplingSpend`: only the nullifier field. -/
structure CompactSpend where
  nf : List Nat
  deriving DecidableEq, Repr

/-- walletrpc `CompactSaplingOutput`: note commitment, ephemeral public key
(`Epk`), ciphertext. -/
structure CompactOutput where
  cmu : List Nat
  epk : List Nat
  ciphertext : List Nat
  deriving DecidableEq, Repr

/-- walletrpc `CompactOrchardAction`: nullifier, note commitment,
ephemeral key, ciphertext. -/
structure CompactAction where
  nullifier : List Nat
  cmx : List Nat
  ephemeralKey : List Nat
  ciphertext : List Nat
  deriving DecidableEq, Repr

/-- walletrpc `CompactTx`: index in the block, txid (`hash`), fee, and the
shielded spend/output/action lists. -/
structure CompactTx where
  index : Nat
  hash : List Nat
  fee : Nat
  spends : List CompactSpend
  outputs : List CompactOutput
  actions : List CompactAction
  deriving DecidableEq, Repr

/-- walletrpc `CompactBlock`: height, block hash, previous hash, time, and
the transaction list. -/
structure CompactBlock where
  height : Nat
  hash : List Nat
  prevHash : List Nat
  time : Nat
  vtx : List CompactTx
  deriving DecidableEq, Repr

/-! ## Go-style results

A Go function returning `(T, error)` is embedded as `GoResult T`; an
index-out-of-range or similar runtime panic (which crashes the process
rather than returning) is a distinct outcome `panicked`. -/

inductive GoResult (α : Type) where
  | ok (a : α)
  | error (e : String)
  | panicked (m : String)
  deriving DecidableEq, Repr

def GoResult.isOk {α : Type} : GoResult α → Bool
  | .ok _ => true
  | _ => false

def GoResult.isError {α : Type} : GoResult α → Bool
  | .error _ => true
  | _ => false

def GoResult.isPanicked {α : Type} : GoResult α → Bool
  | .panicked _ => true
  | _ => false

def GoResult.getD {α : Type} : GoResult α → α → α
  | .ok a, _ => a
  | _, d => d

/-! ## Hex decoding (Go `encoding/hex.DecodeString`)

Succeeds exactly on even-length strings of hex digits (both cases),
producing one byte per digit pair. -/

def hexDigit (c : Char) : Option Nat :=
  if '0' ≤ c ∧ c ≤ '9' then some (c.toNat - '0'.toNat)
  else if 'a' ≤ c ∧ c ≤ 'f' then some (c.toNat - 'a'.toNat + 10)
  else if 'A' ≤ c ∧ c ≤ 'F' then some (c.toNat - 'A'.toNat + 10)
  else none

def hexDecodeList : List Char → Option (List Nat)
  | [] => some []
  | [_] => none
  | a :: b :: rest =>
    match hexDigit a, hexDigit b, hexDecodeList rest with
    | some hi, some lo, some tail => some ((hi * 16 + lo) :: tail)
    | _, _, _ => none

/-- Go `hex.DecodeString`. -/
def hexDecode (s : String) : Option (List Nat) :=
  hexDecodeList s.data

/-- Go `strings.Split(s, ":")[0]`: the prefix of `s` before its first
colon (the whole of `s` when it has none). -/
def firstColonComponent (s : String) : String :=
  String.mk (s.data.takeWhile fun c => c ≠ ':')

/-! ## The block fetcher `getBlockFromRPC`

The RPC transport (`RawRequest`) and the block parser (package `parser`,
outside this package) are environment parameters.  Each RPC reply is
modelled at the point the Go code observes it: the call can fail with an
error string, the JSON unmarshal of a successful reply can fail, or the
expected payload is available. -/

/-- Outcome of `RawRequest("getblock", [height, 0])` followed by
`json.Unmarshal` into a string. -/
inductive RawBlockOutcome where
  | rpcError (msg : String)
  | badJson
  | result (hexStr : String)

/-- Outcome of `RawRequest("getblock", [height, 1])` followed by
`json.Unmarshal` into `ZcashRpcReplyGetblock1` (its `Tx` field is the
ordered list of display-order txid hex strings). -/
inductive VerboseBlockOutcome where
  | rpcError (msg : String)
  | badJson
  | result (txids : List String)

/-- Modelled from the spec: the result of `parser.ParseFromSlice` on raw
block bytes (the `parser` package is not part of this package source).
A successful parse yields the parsed block and the remaining
(unconsumed) bytes. -/
structure ParsedBlock where
  height : Int
  hash : List Nat
  prevHash : List Nat
  time : Nat
  txs : List CompactTx
  deriving DecidableEq, Repr

inductive ParseOutcome where
  | parseError (msg : String)
  | parsed (b : ParsedBlock) (rest : List Nat)

/-- Modelled from the spec: `Block.ToCompact` of the parser package,
applied after the txid-correction loop replaced the transaction ids. -/
def ParsedBlock.toCompact (b : ParsedBlock) (txs : List CompactTx) : CompactBlock :=
  { height := b.height.toNat
    hash := b.hash
    prevHash := b.prevHash
    time := b.time
    vtx := txs }

/-- The fetcher view of the node: the two `getblock` calls it makes and
the external parser. -/
structure RpcEnv where
  getblockRaw : Int → RawBlockOutcome
  parse : List Nat → ParseOutcome
  getblockVerbose : Int → VerboseBlockOutcome

/-- The txid-correction loop of `getBlockFromRPC`:
`for i, t := range block.Transactions() { txid, err := hex.DecodeString(block1.Tx[i]); ...; t.SetTxID(parser.Reverse(txid)) }`.
When the verbose txid list is shorter than the transaction list, the Go
index expression `block1.Tx[i]` panics (index out of range); an entry
that fails to hex-decode produces a wrapped error; extra entries in a
longer list are never read. -/
def setTxids : List CompactTx → List String → GoResult (List CompactTx)
  | [], _ => .ok []
  | _ :: _, [] => .panicked "runtime error: index out of range"
  | t :: ts, s :: ss =>
    match hexDecode s with
    | none => .error "error decoding getblock txid"
    | some txid =>
      match setTxids ts ss with
      | .ok rest => .ok ({ t with hash := txid.reverse } :: rest)
      | .error e => .error e
      | .panicked m => .panicked m

/-- Function `getBlockFromRPC(height)` of common.go: request the raw block, treat an
RPC error whose code (the part of the message before the first colon) is
`-8` as "height not yet available" `(nil, nil)`; otherwise decode the hex
payload, parse it, reject leftover bytes and a wrong parsed height, then
re-request the block verbosely and overwrite the transaction ids. -/
def getBlockFromRPC (env : RpcEnv) (height : Int) : GoResult (Option CompactBlock) :=
  match env.getblockRaw height with
  | .rpcError msg =>
    if firstColonComponent msg = "-8" then .ok none
    else .error ("error requesting block: " ++ msg)
  | .badJson => .error "error reading JSON response"
  | .result hexStr =>
    match hexDecode hexStr with
    | none => .error "error decoding getblock output"
    | some blockData =>
      match env.parse blockData with
      | .parseError m => .error ("error parsing block: " ++ m)
      | .parsed b rest =>
        if rest ≠ [] then .error "received overlong message"
        else if b.height ≠ height then .error "received unexpected height block"
        else
          match env.getblockVerbose height with
          | .rpcError m => .error ("error requesting verbose block: " ++ m)
          | .badJson => .error "json unmarshal error"
          | .result txids =>
            match setTxids b.txs txids with
            | .ok txs => .ok (some (b.toCompact txs))
            | .error e => .error e
            | .panicked m => .panicked m

/-! ## The block cache

The `BlockCache` implementation is not part of this package source
(only its callers are); its operations are modelled from the spec,
section 4.3. -/

/-- Modelled from the spec: the Block Cache, "an ordered, contiguous,
bounded-window store of compact blocks indexed by height": a fixed lower
bound `firstHeight`, the stored blocks (`blocks[i]` lives at height
`firstHeight + i`), and the informational synced flag. -/
structure BlockCache where
  firstHeight : Int
  blocks : List CompactBlock
  synced : Bool
  deriving DecidableEq, Repr

/-- Modelled from the spec: `GetFirstHeight()`, the fixed lower bound. -/
def BlockCache.GetFirstHeight (c : BlockCache) : Int :=
  c.firstHeight

/-- Modelled from the spec: `GetNextHeight()`, the next height to be
ingested (tail height + 1, or `firstHeight` if empty). -/
def BlockCache.GetNextHeight (c : BlockCache) : Int :=
  c.firstHeight + c.blocks.length

/-- Modelled from the spec: `GetLatestHash()`, the hash of the highest
cached block, or empty if the cache is empty. -/
def BlockCache.GetLatestHash (c : BlockCache) : List Nat :=
  match c.blocks.getLast? with
  | some b => b.hash
  | none => []

/-- Modelled from the spec: `HashMatch(candidatePrevHash)`, true iff the
candidate previous-hash equals `GetLatestHash()`. -/
def BlockCache.HashMatch (c : BlockCache) (candidatePrevHash : List Nat) : Bool :=
  candidatePrevHash = c.GetLatestHash

/-- Modelled from the spec: `Get(height)`, the block at `height` when it
lies within `[firstHeight, nextHeight)`, else nil. -/
def BlockCache.Get (c : BlockCache) (height : Int) : Option CompactBlock :=
  if c.firstHeight ≤ height ∧ height < c.GetNextHeight then
    c.blocks[(height - c.firstHeight).toNat]?
  else
    none

/-- Modelled from the spec: `Add(height, block)` succeeds only if
`height = GetNextHeight()`, appending the block; otherwise it fails
without mutating state. -/
def BlockCache.Add (c : BlockCache) (height : Int) (block : CompactBlock) :
    GoResult BlockCache :=
  if height = c.GetNextHeight then .ok { c with blocks := c.blocks ++ [block] }
  else .error "block unexpected height"

/-- Modelled from the spec: `Reorg(height)` truncates the cache so that
`nextHeight` becomes `height + 1`, discarding all cached blocks above
`height`. -/
def BlockCache.Reorg (c : BlockCache) (height : Int) : BlockCache :=
  { c with blocks := c.blocks.take (height + 1 - c.firstHeight).toNat }

/-- Modelled from the spec: `Sync()` records that ingestion has caught up
to the observed tip; bookkeeping only, stored blocks unchanged. -/
def BlockCache.Sync (c : BlockCache) : BlockCache :=
  { c with synced := true }

/-! ## One iteration of `BlockIngestor` -/

/-- Outcome of `RawRequest("getbestblockhash")` followed by
`json.Unmarshal` into a string. -/
inductive BestHashOutcome where
  | rpcError (msg : String)
  | badJson
  | hexStr (s : String)

/-- The environment one ingestor iteration observes: the pending stop
signal, the best-block-hash reply, and the fetcher RPC environment. -/
structure IngestEnv where
  stopRequested : Bool
  bestHash : BestHashOutcome
  rpc : RpcEnv

/-- What one iteration of the `BlockIngestor` loop did: which cache calls
it made, the cache state it left behind, and how control continues.
`fatal` is `Log.Fatal` (process halt); `stopped` is the clean exit on the
stop channel; `bootstrapExit` is the `return` out of the loop after
`Sync()` and the 20-second wait at the first height; `synced`, `added`
and `reorged` all `continue` with the next iteration. -/
inductive IngestOutcome where
  | stopped
  | fatal (msg : String)
  | panicked (msg : String)
  | synced (c : BlockCache)
  | added (height : Int) (c : BlockCache)
  | bootstrapExit (c : BlockCache)
  | reorged (arg : Int) (c : BlockCache)
  deriving DecidableEq, Repr

/-- True iff the iteration called `Reorg`. -/
def IngestOutcome.callsReorg : IngestOutcome → Bool
  | .reorged _ _ => true
  | _ => false

/-- True iff the iteration called `Reorg` with the given argument. -/
def IngestOutcome.callsReorgWith : IngestOutcome → Int → Bool
  | .reorged a _, x => a = x
  | _, _ => false

/-- True iff the iteration called `Add`. -/
def IngestOutcome.callsAdd : IngestOutcome → Bool
  | .added _ _ => true
  | _ => false

/-- One iteration of the `BlockIngestor` loop body: check the stop
channel; query and decode the best-block hash (any failure is fatal); if
it equals the reversed latest cached hash, `Sync()` and continue;
otherwise fetch the block at `GetNextHeight()` (a fetch error is fatal);
a non-nil block whose previous-hash matches the tail is `Add`ed;
otherwise, at the first height the loop `Sync()`s, waits and returns,
and above it the loop calls `Reorg(height - 1)` and continues. -/
def ingestIteration (env : IngestEnv) (c : BlockCache) : IngestOutcome :=
  if env.stopRequested then .stopped
  else
    match env.bestHash with
    | .rpcError m => .fatal ("error zcashd getbestblockhash rpc: " ++ m)
    | .badJson => .fatal "bad getbestblockhash return"
    | .hexStr s =>
      match hexDecode s with
      | none => .fatal "error decoding getbestblockhash"
      | some lastBestBlockHash =>
        let height := c.GetNextHeight
        if lastBestBlockHash = c.GetLatestHash.reverse then
          .synced c.Sync
        else
          match getBlockFromRPC env.rpc height with
          | .error _ => .fatal "getblock failed, will retry"
          | .panicked m => .panicked m
          | .ok blockOpt =>
            match blockOpt with
            | some block =>
              if c.HashMatch block.prevHash then
                match c.Add height block with
                | .ok c1 => .added height c1
                | _ => .fatal "Cache add failed"
              else if height = c.GetFirstHeight then .bootstrapExit c.Sync
              else .reorged (height - 1) (c.Reorg (height - 1))
            | none =>
              if height = c.GetFirstHeight then .bootstrapExit c.Sync
              else .reorged (height - 1) (c.Reorg (height - 1))

/-! ## Ingestor lifecycle (`startIngestor` / `stopIngestor`)

`ingestorRunning` is the package-level flag; `loopRunning` records
whether a `BlockIngestor` goroutine is currently live. -/

structure IngestorLifecycle where
  ingestorRunning : Bool
  loopRunning : Bool
  deriving DecidableEq, Repr

/-- Function `startIngestor(c)`: when the flag is clear, set it and spawn the loop
(the returned Bool reports whether a new loop was spawned); otherwise do
nothing. -/
def startIngestor (s : IngestorLifecycle) : IngestorLifecycle × Bool :=
  if s.ingestorRunning then (s, false)
  else ({ ingestorRunning := true, loopRunning := true }, true)

/-- Function `stopIngestor()`: when the flag is set, clear it and signal the loop
over the stop channel. -/
def stopIngestor (s : IngestorLifecycle) : IngestorLifecycle :=
  if s.ingestorRunning then { ingestorRunning := false, loopRunning := false }
  else s

/-- The `BlockIngestor` goroutine returning out of its loop (as the
bootstrapping branch and the stop branch do): the goroutine ends, but
`ingestorRunning` is not touched by the loop itself. -/
def loopReturn (s : IngestorLifecycle) : IngestorLifecycle :=
  { s with loopRunning := false }

/-! ## The range server: `GetBlock`, `FilterSpammyBlock`, `GetBlockRange` -/

/-- Function `GetBlock(cache, height)`: cache-first; on a miss fetch from the node
(read-through), turning the fetcher result `(nil, nil)` into the error
"block requested is newer than latest block".  The cache state is
threaded explicitly; the only cache operation performed is the read
`Get`. -/
def GetBlock (env : RpcEnv) (cache : BlockCache) (height : Int) :
    GoResult CompactBlock × BlockCache :=
  match cache.Get height with
  | some block => (.ok block, cache)
  | none =>
    match getBlockFromRPC env height with
    | .error e => (.error e, cache)
    | .panicked m => (.panicked m, cache)
    | .ok none => (.error "block requested is newer than latest block", cache)
    | .ok (some block) => (.ok block, cache)

/-- The per-transaction body of `FilterSpammyBlock`: when the combined
output+action count exceeds the threshold, clear `Ciphertext` and `Epk`
on every output and `Ciphertext`, `EphemeralKey` and `Nullifier` on
every action; otherwise leave the transaction alone. -/
def filterTx (spamFilterThreshold : Int) (tx : CompactTx) : CompactTx :=
  if (tx.outputs.length : Int) + (tx.actions.length : Int) > spamFilterThreshold then
    { tx with
      outputs := tx.outputs.map fun o => { o with ciphertext := [], epk := [] }
      actions := tx.actions.map fun a =>
        { a with ciphertext := [], ephemeralKey := [], nullifier := [] } }
  else tx

/-- Function `FilterSpammyBlock(block, spamFilterThreshold)`: threshold 0 returns
the block itself; otherwise work on a clone of the block, redacting
every transaction over the threshold. -/
def FilterSpammyBlock (block : CompactBlock) (spamFilterThreshold : Int) : CompactBlock :=
  if spamFilterThreshold = 0 then block
  else { block with vtx := block.vtx.map (filterTx spamFilterThreshold) }

/-- The sequence of heights the `GetBlockRange` loop visits:
`for i := low; i <= high; i++` with `j := i` flipped to
`high - (i - low)` when `start > end`. -/
def rangeHeights (start end_ : Int) : List Int :=
  let low := if start > end_ then end_ else start
  let high := if start > end_ then start else end_
  (List.range (high - low + 1).toNat).map fun k : Nat =>
    let i := low + (k : Int)
    if start > end_ then high - (i - low) else i

/-- One event observable by the consumer of `GetBlockRange`: a compact
block sent on `blockOut`, a value sent on `errOut` (`none` being the nil
sentinel), or a runtime panic escaping the loop. -/
inductive RangeEvent where
  | block (b : CompactBlock)
  | errOut (e : Option String)
  | panicked (m : String)
  deriving DecidableEq, Repr

/-- The `GetBlockRange` loop over an explicit list of heights: emit each
filtered block in turn; on the first `GetBlock` error send it on
`errOut` and stop; after the whole list send the nil sentinel.
(`GetBlock` leaves the cache unchanged — `getBlock_cache_eq` below — so
reusing `cache` at every height is faithful.) -/
def getBlockRangeEvents (env : RpcEnv) (cache : BlockCache) (heights : List Int)
    (spamFilterThreshold : Int) : List RangeEvent :=
  match heights with
  | [] => [RangeEvent.errOut none]
  | h :: rest =>
    match (GetBlock env cache h).1 with
    | .error e => [RangeEvent.errOut (some e)]
    | .panicked m => [RangeEvent.panicked m]
    | .ok b =>
      RangeEvent.block (FilterSpammyBlock b spamFilterThreshold) ::
        getBlockRangeEvents env cache rest spamFilterThreshold

/-- Function `GetBlockRange(cache, blockOut, errOut, start, end, spamFilterThreshold)`,
observed as the sequence of channel events it produces. -/
def GetBlockRange (env : RpcEnv) (cache : BlockCache) (start end_ : Int)
    (spamFilterThreshold : Int) : List RangeEvent :=
  getBlockRangeEvents env cache (rangeHeights start end_) spamFilterThreshold

/-- Events produced by the `GetBlockRange` loop from its first failing
height on (empty-tail means the whole range succeeded and the nil
sentinel is sent). -/
def rangeTail (env : RpcEnv) (cache : BlockCache) : List Int → List RangeEvent
  | [] => [RangeEvent.errOut none]
  | h :: _ =>
    match (GetBlock env cache h).1 with
    | .error e => [RangeEvent.errOut (some e)]
    | .panicked m => [RangeEvent.panicked m]
    | .ok _ => []

/-! ## `GetLightdInfo` -/

/-- A zcashd RPC reply as consumed by `GetLightdInfo`: a transport-level
error, a transport success whose JSON fails to unmarshal, or the decoded
reply. -/
inductive RpcReply (α : Type) where
  | rpcError (msg : String)
  | badJson
  | ok (a : α)

/-- zcashd `getblockchaininfo` per-upgrade entry. -/
structure Upgradeinfo where
  activationHeight : Int
  status : String
  deriving DecidableEq, Repr

structure ConsensusInfo where
  nextblock : String
  chaintip : String
  deriving DecidableEq, Repr

structure ZcashdRpcReplyGetblockchaininfo where
  chain : String
  upgrades : List (String × Upgradeinfo)
  blocks : Int
  bestBlockHash : String
  consensus : ConsensusInfo
  estimatedHeight : Int
  deriving DecidableEq, Repr

structure ZcashdRpcReplyGetinfo where
  build : String
  subversion : String
  deriving DecidableEq, Repr

/-- The two RPC replies `GetLightdInfo` consumes. -/
structure LightdEnv where
  getinfo : RpcReply ZcashdRpcReplyGetinfo
  getblockchaininfo : RpcReply ZcashdRpcReplyGetblockchaininfo

/-- The build-stamp globals of common.go. -/
def Version : String := "v0.0.0.0-dev"

def GitCommit : String := ""

def Branch : String := ""

def BuildDate : String := ""

def BuildUser : String := ""

/-- walletrpc `LightdInfo`, the fields `GetLightdInfo` fills in. -/
structure LightdInfo where
  version : String
  vendor : String
  taddrSupport : Bool
  chainName : String
  saplingActivationHeight : Nat
  consensusBranchId : String
  blockHeight : Nat
  gitCommit : String
  branch : String
  buildDate : String
  buildUser : String
  estimatedHeight : Nat
  zcashdBuild : String
  zcashdSubversion : String
  deriving DecidableEq, Repr

/-- Go `uint64(n)` applied to an `int`: twos-complement wraparound. -/
def toUint64 (n : Int) : Nat :=
  (n % (2 ^ 64 : Int)).toNat

/-- Function `GetLightdInfo()`: issue `getinfo` then `getblockchaininfo`; a
transport error is returned as the error.  When a reply JSON fails to
unmarshal, the code executes `return nil, rpcErr` — but `rpcErr` is nil
at that point, so the result is `(nil, nil)`.  `DarksideEnabled` lives
outside this file and is passed in. -/
def GetLightdInfo (env : LightdEnv) (darksideEnabled : Bool) :
    Option LightdInfo × Option String :=
  match env.getinfo with
  | .rpcError m => (none, some m)
  | .badJson => (none, none)
  | .ok getinfoReply =>
    match env.getblockchaininfo with
    | .rpcError m => (none, some m)
    | .badJson => (none, none)
    | .ok bci =>
      let saplingHeight :=
        match bci.upgrades.lookup "76b809bb" with
        | some u => u.activationHeight
        | none => 0
      let vendor :=
        if darksideEnabled then "Zecwallet DarksideWalletD" else "Zecwallet LightWalletD"
      (some
        { version := Version
          vendor := vendor
          taddrSupport := true
          chainName := bci.chain
          saplingActivationHeight := toUint64 saplingHeight
          consensusBranchId := bci.consensus.chaintip
          blockHeight := toUint64 bci.blocks
          gitCommit := GitCommit
          branch := Branch
          buildDate := BuildDate
          buildUser := BuildUser
          estimatedHeight := toUint64 bci.estimatedHeight
          zcashdBuild := getinfoReply.build
          zcashdSubversion := getinfoReply.subversion }, none)

/-! ## Concrete scenario inputs used by witnesses and counterexamples -/

/-- A compact block at height `i` with hash `[i]` and previous hash
`[i - 1]`, so consecutive blocks are correctly linked. -/
def mkBlock (i : Nat) : CompactBlock :=
  { height := i, hash := [i], prevHash := [i - 1], time := 0, vtx := [] }

/-- A cache holding blocks 1..4 with valid linkage (`firstHeight = 1`,
`GetNextHeight() = 5`, latest hash `[4]`). -/
def cache14 : BlockCache :=
  { firstHeight := 1
    blocks := [mkBlock 1, mkBlock 2, mkBlock 3, mkBlock 4]
    synced := false }

/-- An empty cache with `firstHeight = 1`. -/
def cacheEmpty : BlockCache :=
  { firstHeight := 1, blocks := [], synced := false }

/-- An RPC environment whose `getblock` always reports code `-8`
(height not yet produced), so the fetcher returns `(nil, nil)`. -/
def rpcNotYet : RpcEnv :=
  { getblockRaw := fun _ => .rpcError "-8: Block height out of range"
    parse := fun _ => .parseError "unused"
    getblockVerbose := fun _ => .rpcError "unused" }

/-- An RPC environment whose `getblock` fails with a non-`-8` error. -/
def rpcOtherError : RpcEnv :=
  { getblockRaw := fun _ => .rpcError "-5: could not connect"
    parse := fun _ => .parseError "unused"
    getblockVerbose := fun _ => .rpcError "unused" }

/-- A parse result for height 5 whose previous hash `[99]` does not link
onto the hash `[4]` of block 4. -/
def parsedBlock5Mismatch : ParsedBlock :=
  { height := 5, hash := [55], prevHash := [99], time := 0, txs := [] }

/-- An RPC environment that successfully serves a block at any requested
height, parsed as `parsedBlock5Mismatch` (no transactions, so the
verbose txid list is empty and accepted). -/
def rpcMismatch5 : RpcEnv :=
  { getblockRaw := fun _ => .result "00"
    parse := fun _ => .parsed parsedBlock5Mismatch []
    getblockVerbose := fun _ => .result [] }

/-- The compact block the fetcher produces from `rpcMismatch5`. -/
def block5Mismatch : CompactBlock :=
  parsedBlock5Mismatch.toCompact []

/-- Ingestor iteration environment for the not-yet-available scenario:
no stop request, best-block hash `"ff"` (which differs from every cached
hash in these scenarios), fetches answered with code `-8`. -/
def envNotYet : IngestEnv :=
  { stopRequested := false, bestHash := .hexStr "ff", rpc := rpcNotYet }

/-- Ingestor iteration environment for the linkage-mismatch scenario:
no stop request, best-block hash `"ff"`, fetches served from
`rpcMismatch5`. -/
def envMismatch : IngestEnv :=
  { stopRequested := false, bestHash := .hexStr "ff", rpc := rpcMismatch5 }

/-- A transaction with no shielded data and txid `[1]`. -/
def txPlain : CompactTx :=
  { index := 0, hash := [1], fee := 0, spends := [], outputs := [], actions := [] }

/-- A parse result for height 7 containing one transaction. -/
def parsedBlock7OneTx : ParsedBlock :=
  { height := 7, hash := [7], prevHash := [6], time := 0, txs := [txPlain] }

/-- An RPC environment whose verbose txid list is SHORTER than the parsed
transaction list (zero txids for one transaction). -/
def rpcShortTxids : RpcEnv :=
  { getblockRaw := fun _ => .result "00"
    parse := fun _ => .parsed parsedBlock7OneTx []
    getblockVerbose := fun _ => .result [] }

/-- An RPC environment whose verbose txid list is LONGER than the parsed
transaction list (two txids for one transaction). -/
def rpcLongTxids : RpcEnv :=
  { getblockRaw := fun _ => .result "00"
    parse := fun _ => .parsed parsedBlock7OneTx []
    getblockVerbose := fun _ => .result ["aa", "bb"] }

/-- An RPC environment whose raw `getblock` reply is not valid hex. -/
def rpcBadHex : RpcEnv :=
  { getblockRaw := fun _ => .result "zz"
    parse := fun _ => .parseError "unused"
    getblockVerbose := fun _ => .rpcError "unused" }

/-- The block carried by `rangeTail`-irrelevant successful results; used
only as the (never exposed) default of `GoResult.getD`. -/
def emptyBlock : CompactBlock :=
  { height := 0, hash := [], prevHash := [], time := 0, vtx := [] }

/-- A spammy transaction: three outputs and one action, all fields
populated. -/
def txSpammy : CompactTx :=
  { index := 1
    hash := [2]
    fee := 1
    spends := [{ nf := [9] }]
    outputs :=
      [{ cmu := [1], epk := [2], ciphertext := [3] },
       { cmu := [4], epk := [5], ciphertext := [6] },
       { cmu := [7], epk := [8], ciphertext := [9] }]
    actions := [{ nullifier := [1], cmx := [2], ephemeralKey := [3], ciphertext := [4] }] }

/-- A modest transaction: one output and one action. -/
def txModest : CompactTx :=
  { index := 2
    hash := [3]
    fee := 0
    spends := []
    outputs := [{ cmu := [1], epk := [2], ciphertext := [3] }]
    actions := [{ nullifier := [5], cmx := [6], ephemeralKey := [7], ciphertext := [8] }] }

/-- A block holding `txSpammy` (4 outputs+actions) and `txModest`
(2 outputs+actions). -/
def blockSpam : CompactBlock :=
  { height := 9, hash := [9], prevHash := [8], time := 1, vtx := [txSpammy, txModest] }

/-- A `GetLightdInfo` environment whose `getinfo` reply fails to
unmarshal. -/
def lightdEnvBadGetinfo : LightdEnv :=
  { getinfo := .badJson
    getblockchaininfo := .rpcError "unused" }

/-- A `GetLightdInfo` environment whose `getinfo` succeeds but whose
`getblockchaininfo` reply fails to unmarshal. -/
def lightdEnvBadChaininfo : LightdEnv :=
  { getinfo := .ok { build := "b", subversion := "s" }
    getblockchaininfo := .badJson }

/-! ## Helper lemmas -/

/-- The read path never alters the cache: `GetBlock` only calls the read
operation `Get` and the cache-free fetcher. -/
theorem getBlock_cache_eq (env : RpcEnv) (cache : BlockCache) (height : Int) :
    (GetBlock env cache height).2 = cache := by
  rcases h1 : cache.Get height with _ | b
  · rcases h2 : getBlockFromRPC env height with o | e | m
    · rcases o with _ | b <;> simp [GetBlock, h1, h2]
    · simp [GetBlock, h1, h2]
    · simp [GetBlock, h1, h2]
  · simp [GetBlock, h1]

/-! ## Claim C5 -/

/-- C5: when the non-verbose getblock request fails, `getBlockFromRPC`
returns `(nil, nil)` exactly when the error code (the part of the
message before the first colon) is `-8`, and otherwise returns the
wrapped non-nil error. -/
theorem C5_fetch_notYet_vs_other_errors (env : RpcEnv) (height : Int) (msg : String)
    (h : env.getblockRaw height = .rpcError msg) :
    getBlockFromRPC env height =
      (if firstColonComponent msg = "-8" then .ok none
       else .error ("error requesting block: " ++ msg)) ∧
    (firstColonComponent msg ≠ "-8" → (getBlockFromRPC env height).isError = true) := by
  constructor
  · simp only [getBlockFromRPC, h]
  · intro hne
    simp only [getBlockFromRPC, h, if_neg hne, GoResult.isError]

/-- C5 witness: code `-8` gives `(nil, nil)`; code `-5` gives a non-nil
error. -/
theorem C5_witness :
    getBlockFromRPC rpcNotYet 5 = .ok none ∧
    (getBlockFromRPC rpcOtherError 5).isError = true := by
  constructor
  · have h := (C5_fetch_notYet_vs_other_errors rpcNotYet 5
      "-8: Block height out of range" rfl).1
    rw [h, if_pos (by decide)]
  · exact (C5_fetch_notYet_vs_other_errors rpcOtherError 5
      "-5: could not connect" rfl).2 (by decide)

/-! ## Claim C8 -/

/-- C8: for every cache state and height, the Range Server `GetBlock`
(including the read-through fallback on a cache miss) leaves the cache
unchanged: same state, same `GetFirstHeight`, same `GetNextHeight`, and
every `Get` answer is the same before and after. -/
theorem C8_getBlock_frame (env : RpcEnv) (cache : BlockCache) (height : Int) :
    (GetBlock env cache height).2 = cache ∧
    ((GetBlock env cache height).2).GetFirstHeight = cache.GetFirstHeight ∧
    ((GetBlock env cache height).2).GetNextHeight = cache.GetNextHeight ∧
    ∀ h2 : Int, ((GetBlock env cache height).2).Get h2 = cache.Get h2 := by
  have h := getBlock_cache_eq env cache height
  exact ⟨h, by rw [h], by rw [h], fun h2 => by rw [h]⟩

/-! ## Claim C9 -/

/-- C9: on a cache miss where the fetcher reports height-not-yet-available
`(nil, nil)`, `GetBlock` returns a non-nil error saying the requested
block is newer than the chain tip. -/
theorem C9_getBlock_newer_than_tip (env : RpcEnv) (cache : BlockCache) (height : Int)
    (hmiss : cache.Get height = none)
    (hfetch : getBlockFromRPC env height = .ok none) :
    (GetBlock env cache height).1 =
      .error "block requested is newer than latest block" ∧
    ((GetBlock env cache height).1).isError = true := by
  have h : (GetBlock env cache height).1 =
      .error "block requested is newer than latest block" := by
    simp [GetBlock, hmiss, hfetch]
  exact ⟨h, by rw [h]; rfl⟩

/-- C9 witness: an empty cache and a node that does not have the block
yet produce the newer-than-tip error. -/
theorem C9_witness :
    (GetBlock rpcNotYet cacheEmpty 1).1 =
      .error "block requested is newer than latest block" :=
  (C9_getBlock_newer_than_tip rpcNotYet cacheEmpty 1 (by decide) (by decide)).1

/-! ## Claim C10 -/

/-- C10: when a `getinfo` or `getblockchaininfo` reply arrives at the
transport level but its JSON fails to unmarshal, `GetLightdInfo` returns
`(nil, nil)`: a nil result with a nil error. -/
theorem C10_lightdinfo_swallows_unmarshal_failure (env : LightdEnv) (d : Bool) :
    (env.getinfo = .badJson → GetLightdInfo env d = (none, none)) ∧
    (∀ gi, env.getinfo = .ok gi → env.getblockchaininfo = .badJson →
      GetLightdInfo env d = (none, none)) := by
  constructor
  · intro h
    simp [GetLightdInfo, h]
  · intro gi h1 h2
    simp [GetLightdInfo, h1, h2]

/-- C10 witness: both unmarshal-failure positions yield `(nil, nil)`. -/
theorem C10_witness :
    GetLightdInfo lightdEnvBadGetinfo false = (none, none) ∧
    GetLightdInfo lightdEnvBadChaininfo false = (none, none) := by
  constructor
  · exact (C10_lightdinfo_swallows_unmarshal_failure lightdEnvBadGetinfo false).1 rfl
  · exact (C10_lightdinfo_swallows_unmarshal_failure lightdEnvBadChaininfo false).2
      { build := "b", subversion := "s" } rfl rfl

/-! ## Claim C7 -/

/-- C7: `FilterSpammyBlock` with threshold 0 returns the block itself;
with a positive threshold every transaction at or below the combined
output+action threshold is unchanged, every transaction above it has the
ciphertext and ephemeral-key fields cleared on all outputs and the
ciphertext, ephemeral-key and nullifier fields cleared on all actions,
and the surrounding block structure (height, hashes, time, transaction
count and order, txids, fees, spends, note commitments) is intact. -/
theorem C7_spam_filter (b : CompactBlock) (t : Int) (ht : 0 < t) :
    FilterSpammyBlock b 0 = b ∧
    (FilterSpammyBlock b t).height = b.height ∧
    (FilterSpammyBlock b t).hash = b.hash ∧
    (FilterSpammyBlock b t).prevHash = b.prevHash ∧
    (FilterSpammyBlock b t).time = b.time ∧
    (FilterSpammyBlock b t).vtx = b.vtx.map (filterTx t) ∧
    ∀ tx : CompactTx,
      ((tx.outputs.length : Int) + (tx.actions.length : Int) ≤ t →
        filterTx t tx = tx) ∧
      (t < (tx.outputs.length : Int) + (tx.actions.length : Int) →
        filterTx t tx =
          { tx with
            outputs := tx.outputs.map fun o => { o with ciphertext := [], epk := [] }
            actions := tx.actions.map fun a =>
              { a with ciphertext := [], ephemeralKey := [], nullifier := [] } }) := by
  have hne : ¬ t = 0 := by omega
  refine ⟨by simp [FilterSpammyBlock], ?_, ?_, ?_, ?_, ?_, ?_⟩
  · rw [FilterSpammyBlock, if_neg hne]
  · rw [FilterSpammyBlock, if_neg hne]
  · rw [FilterSpammyBlock, if_neg hne]
  · rw [FilterSpammyBlock, if_neg hne]
  · rw [FilterSpammyBlock, if_neg hne]
  · intro tx
    constructor
    · intro hle
      rw [filterTx, if_neg (by omega)]
    · intro hgt
      rw [filterTx, if_pos (by omega)]

/-- C7 witness: with threshold 2, a transaction with exactly 2
outputs+actions is untouched and the spammy one is redacted. -/
theorem C7_witness :
    FilterSpammyBlock blockSpam 0 = blockSpam ∧
    filterTx 2 txModest = txModest ∧
    (FilterSpammyBlock blockSpam 2).vtx = [filterTx 2 txSpammy, filterTx 2 txModest] ∧
    filterTx 2 txSpammy =
      { txSpammy with
        outputs := txSpammy.outputs.map fun o => { o with ciphertext := [], epk := [] }
        actions := txSpammy.actions.map fun a =>
          { a with ciphertext := [], ephemeralKey := [], nullifier := [] } } := by
  have h := C7_spam_filter blockSpam 2 (by decide)
  refine ⟨h.1, (h.2.2.2.2.2.2 txModest).1 (by decide), ?_, (h.2.2.2.2.2.2 txSpammy).2 (by decide)⟩
  rw [h.2.2.2.2.2.1]
  rfl

/-! ## Claim C1 (corrected) -/

/-- C1 counterexample: with blocks 1..4 cached and the fetcher answering
`(nil, nil)` (RPC code `-8`), the iteration does NOT leave the cache
calls untouched and loop back: it calls `Reorg(4)`. -/
theorem C1_counterexample :
    getBlockFromRPC envNotYet.rpc cache14.GetNextHeight = .ok none ∧
    ingestIteration envNotYet cache14 = .reorged 4 (cache14.Reorg 4) ∧
    (ingestIteration envNotYet cache14).callsReorg = true := by
  refine ⟨by decide, by decide, by decide⟩

/-- C1 amended: in an iteration where the tip hash differs from the
cached tip and the fetcher returns `(nil, nil)`, the Ingestor does not
simply wait and retry: at the first height it calls `Sync()` and exits
the loop (bootstrap wait), and above the first height it treats the
missing block like a linkage mismatch and calls
`Reorg(GetNextHeight() - 1)`. -/
theorem C1_amended_notYet_reorgs (env : IngestEnv) (c : BlockCache) (s : String)
    (bytes : List Nat)
    (hstop : env.stopRequested = false)
    (hbest : env.bestHash = .hexStr s)
    (hhex : hexDecode s = some bytes)
    (htip : bytes ≠ c.GetLatestHash.reverse)
    (hfetch : getBlockFromRPC env.rpc c.GetNextHeight = .ok none) :
    ingestIteration env c =
      if c.GetNextHeight = c.GetFirstHeight then .bootstrapExit c.Sync
      else .reorged (c.GetNextHeight - 1) (c.Reorg (c.GetNextHeight - 1)) := by
  simp [ingestIteration, hstop, hbest, hhex, htip, hfetch]

/-- C1 witness for the amended statement: the concrete blocks-1..4
scenario instantiates it, giving `Reorg(4)`. -/
theorem C1_witness :
    ingestIteration envNotYet cache14 =
      .reorged (cache14.GetNextHeight - 1) (cache14.Reorg (cache14.GetNextHeight - 1)) := by
  have h := C1_amended_notYet_reorgs envNotYet cache14 "ff" [255]
    rfl rfl (by decide) (by decide) (by decide)
  rw [h, if_neg (by decide)]

/-! ## Claim C2 (corrected) -/

/-- C2 counterexample: with blocks 1..4 cached and a mismatching block
fetched at height 5, the iteration calls `Reorg(4)`, not `Reorg(3)` as
the claim states. -/
theorem C2_counterexample :
    getBlockFromRPC envMismatch.rpc cache14.GetNextHeight = .ok (some block5Mismatch) ∧
    cache14.HashMatch block5Mismatch.prevHash = false ∧
    (ingestIteration envMismatch cache14).callsReorgWith 3 = false ∧
    (ingestIteration envMismatch cache14).callsReorgWith 4 = true := by
  refine ⟨by decide, by decide, by decide, by decide⟩

/-- C2 amended: whenever the Ingestor fetches a non-nil block whose
previous-hash does not match the cache tail and the tail is not at
`GetFirstHeight()`, it calls `Reorg(GetNextHeight() - 1)`; concretely,
with blocks 1..4 cached and a mismatching block fetched at height 5, the
call made is `Reorg(4)`. -/
theorem C2_amended_reorg_argument (env : IngestEnv) (c : BlockCache) (s : String)
    (bytes : List Nat) (b : CompactBlock)
    (hstop : env.stopRequested = false)
    (hbest : env.bestHash = .hexStr s)
    (hhex : hexDecode s = some bytes)
    (htip : bytes ≠ c.GetLatestHash.reverse)
    (hfetch : getBlockFromRPC env.rpc c.GetNextHeight = .ok (some b))
    (hmatch : c.HashMatch b.prevHash = false)
    (hfirst : c.GetNextHeight ≠ c.GetFirstHeight) :
    ingestIteration env c =
      .reorged (c.GetNextHeight - 1) (c.Reorg (c.GetNextHeight - 1)) := by
  simp [ingestIteration, hstop, hbest, hhex, htip, hfetch, hmatch, hfirst]

/-- C2 witness for the amended statement: the concrete blocks-1..4
scenario with a mismatching block at height 5 gives `Reorg(4)`. -/
theorem C2_witness :
    ingestIteration envMismatch cache14 =
      .reorged (cache14.GetNextHeight - 1) (cache14.Reorg (cache14.GetNextHeight - 1)) :=
  C2_amended_reorg_argument envMismatch cache14 "ff" [255] block5Mismatch
    rfl rfl (by decide) (by decide) (by decide) (by decide) (by decide)

/-! ## Claim C4 (corrected) -/

/-- C4 counterexample: the loop exits via the bootstrapping path
(`bootstrapExit`, modelled on the lifecycle by `loopReturn`), but since
the loop never clears `ingestorRunning`, a subsequent `startIngestor`
spawns nothing, leaving no loop running. -/
theorem C4_counterexample :
    ingestIteration envNotYet cacheEmpty = .bootstrapExit cacheEmpty.Sync ∧
    (startIngestor (loopReturn (startIngestor ⟨false, false⟩).1)).2 = false ∧
    (startIngestor (loopReturn (startIngestor ⟨false, false⟩).1)).1.loopRunning = false := by
  refine ⟨by decide, by decide, by decide⟩

/-- C4 amended: starting an already-running ingestor spawns no second
loop, and after the loop exits via the bootstrapping path
`ingestorRunning` is still set, so a subsequent `startIngestor` is a
no-op and does NOT start a new loop; only after `stopIngestor` does a
`startIngestor` spawn again. -/
theorem C4_amended_start_is_not_reentrant (s : IngestorLifecycle) :
    (startIngestor s).1.ingestorRunning = true ∧
    startIngestor (loopReturn (startIngestor s).1) =
      (loopReturn (startIngestor s).1, false) ∧
    (startIngestor (startIngestor s).1).2 = false ∧
    (startIngestor (stopIngestor (loopReturn (startIngestor s).1))).2 = true := by
  obtain ⟨r, l⟩ := s
  cases r <;> cases l <;> refine ⟨by decide, by decide, by decide, by decide⟩

/-! ## Claim C3 (corrected) -/

/-- C3 counterexample: a verbose txid list that does not match the parsed
transactions does NOT always produce an error return: a shorter list
makes `getBlockFromRPC` panic (index out of range), and a longer list is
silently accepted with the extra entries ignored. -/
theorem C3_counterexample :
    getBlockFromRPC rpcShortTxids 7 = .panicked "runtime error: index out of range" ∧
    (getBlockFromRPC rpcShortTxids 7).isError = false ∧
    getBlockFromRPC rpcLongTxids 7 =
      .ok (some (parsedBlock7OneTx.toCompact [{ txPlain with hash := [170] }])) ∧
    (getBlockFromRPC rpcLongTxids 7).isError = false := by
  refine ⟨by decide, by decide, by decide, by decide⟩

/-- C3 amended: every malformed upstream reply to a block fetch —
undecodable JSON, undecodable hex, a parse failure, trailing bytes left
after parsing, a parsed height different from the requested height, a
failing or undecodable verbose reply, or a verbose txid entry that does
not hex-decode — makes `getBlockFromRPC` return a non-nil error; but a
verbose txid list shorter than the parsed transaction list causes an
index-out-of-range panic (crash) rather than an error return, and a
longer list is accepted (the txid-correction loop result, captured by
`setTxids`, determines the outcome). -/
theorem C3_amended_malformed_replies (env : RpcEnv) (height : Int) :
    (env.getblockRaw height = .badJson → (getBlockFromRPC env height).isError = true) ∧
    (∀ s, env.getblockRaw height = .result s → hexDecode s = none →
      (getBlockFromRPC env height).isError = true) ∧
    (∀ s bs m, env.getblockRaw height = .result s → hexDecode s = some bs →
      env.parse bs = .parseError m → (getBlockFromRPC env height).isError = true) ∧
    (∀ s bs b rest, env.getblockRaw height = .result s → hexDecode s = some bs →
      env.parse bs = .parsed b rest → rest ≠ [] →
      (getBlockFromRPC env height).isError = true) ∧
    (∀ s bs b, env.getblockRaw height = .result s → hexDecode s = some bs →
      env.parse bs = .parsed b [] → b.height ≠ height →
      (getBlockFromRPC env height).isError = true) ∧
    (∀ s bs b m, env.getblockRaw height = .result s → hexDecode s = some bs →
      env.parse bs = .parsed b [] → b.height = height →
      env.getblockVerbose height = .rpcError m →
      (getBlockFromRPC env height).isError = true) ∧
    (∀ s bs b, env.getblockRaw height = .result s → hexDecode s = some bs →
      env.parse bs = .parsed b [] → b.height = height →
      env.getblockVerbose height = .badJson →
      (getBlockFromRPC env height).isError = true) ∧
    (∀ s bs b txids, env.getblockRaw height = .result s → hexDecode s = some bs →
      env.parse bs = .parsed b [] → b.height = height →
      env.getblockVerbose height = .result txids →
      getBlockFromRPC env height =
        (match setTxids b.txs txids with
         | .ok txs => .ok (some (b.toCompact txs))
         | .error e => .error e
         | .panicked m => .panicked m)) ∧
    (∀ (t : CompactTx) ts s ss, hexDecode s = none →
      setTxids (t :: ts) (s :: ss) = .error "error decoding getblock txid") ∧
    (∀ (t : CompactTx) ts, setTxids (t :: ts) [] =
      .panicked "runtime error: index out of range") := by
  refine ⟨?_, ?_, ?_, ?_, ?_, ?_, ?_, ?_, ?_, ?_⟩
  · intro h
    simp [getBlockFromRPC, h, GoResult.isError]
  · intro s h1 h2
    simp [getBlockFromRPC, h1, h2, GoResult.isError]
  · intro s bs m h1 h2 h3
    simp [getBlockFromRPC, h1, h2, h3, GoResult.isError]
  · intro s bs b rest h1 h2 h3 h4
    simp [getBlockFromRPC, h1, h2, h3, h4, GoResult.isError]
  · intro s bs b h1 h2 h3 h4
    simp only [getBlockFromRPC, h1, h2, h3]
    rw [if_neg (by simp), if_pos h4]
    rfl
  · intro s bs b m h1 h2 h3 h4 h5
    simp only [getBlockFromRPC, h1, h2, h3, h5]
    rw [if_neg (by simp), if_neg (by simp [h4])]
    rfl
  · intro s bs b h1 h2 h3 h4 h5
    simp only [getBlockFromRPC, h1, h2, h3, h5]
    rw [if_neg (by simp), if_neg (by simp [h4])]
    rfl
  · intro s bs b txids h1 h2 h3 h4 h5
    simp only [getBlockFromRPC, h1, h2, h3, h5]
    rw [if_neg (by simp), if_neg (by simp [h4])]
  · intro t ts s ss h
    simp [setTxids, h]
  · intro t ts
    rfl

/-- C3 witness for the amended statement: an undecodable hex payload
yields an error return. -/
theorem C3_witness : (getBlockFromRPC rpcBadHex 7).isError = true :=
  (C3_amended_malformed_replies rpcBadHex 7).2.1 "zz" rfl (by decide)

/-! ## Claim C6: helper lemmas about the range loop -/

/-- Ascending case of the height sequence. -/
theorem rangeHeights_of_le (start end_ : Int) (h : ¬ start > end_) :
    rangeHeights start end_ =
      (List.range (end_ - start + 1).toNat).map fun k : Nat => start + (k : Int) := by
  unfold rangeHeights
  simp only [if_neg h]

/-- Descending case of the height sequence. -/
theorem rangeHeights_of_gt (start end_ : Int) (h : start > end_) :
    rangeHeights start end_ =
      (List.range (start - end_ + 1).toNat).map fun k : Nat => start - (k : Int) := by
  unfold rangeHeights
  simp only [if_pos h]
  apply List.map_congr_left
  intro k _
  omega

/-- The heights visited are exactly the inclusive interval between
`start` and `end_`. -/
theorem mem_rangeHeights (start end_ h : Int) :
    h ∈ rangeHeights start end_ ↔ min start end_ ≤ h ∧ h ≤ max start end_ := by
  by_cases hc : start > end_
  · rw [rangeHeights_of_gt start end_ hc, min_eq_right (le_of_lt hc),
      max_eq_left (le_of_lt hc)]
    simp only [List.mem_map, List.mem_range]
    constructor
    · rintro ⟨k, hk, rfl⟩
      omega
    · rintro ⟨h1, h2⟩
      exact ⟨(start - h).toNat, by omega, by omega⟩
  · have hle : start ≤ end_ := by omega
    rw [rangeHeights_of_le start end_ hc, min_eq_left hle, max_eq_right hle]
    simp only [List.mem_map, List.mem_range]
    constructor
    · rintro ⟨k, hk, rfl⟩
      omega
    · rintro ⟨h1, h2⟩
      exact ⟨(h - start).toNat, by omega, by omega⟩

/-- The heights are visited in strictly ascending order when
`start ≤ end_` and strictly descending order otherwise. -/
theorem rangeHeights_pairwise (start end_ : Int) :
    (rangeHeights start end_).Pairwise
      (fun a b => if start ≤ end_ then a < b else b < a) := by
  by_cases hc : start > end_
  · rw [rangeHeights_of_gt start end_ hc, List.pairwise_map]
    refine (List.pairwise_lt_range _).imp ?_
    intro a b hab
    have hle : ¬ start ≤ end_ := by omega
    simp only [if_neg hle]
    omega
  · rw [rangeHeights_of_le start end_ hc, List.pairwise_map]
    refine (List.pairwise_lt_range _).imp ?_
    intro a b hab
    have hle : start ≤ end_ := by omega
    simp only [if_pos hle]
    omega

/-- The range loop emits the filtered blocks of the longest all-`ok`
prefix of its height list, then the events of `rangeTail` at the first
failure (or the nil sentinel when there is none). -/
theorem getBlockRangeEvents_characterization (env : RpcEnv) (cache : BlockCache)
    (t : Int) (heights : List Int) :
    getBlockRangeEvents env cache heights t =
      (heights.takeWhile fun h => ((GetBlock env cache h).1).isOk).map
        (fun h => RangeEvent.block
          (FilterSpammyBlock (((GetBlock env cache h).1).getD emptyBlock) t)) ++
      rangeTail env cache
        (heights.dropWhile fun h => ((GetBlock env cache h).1).isOk) := by
  induction heights with
  | nil => rfl
  | cons h rest ih =>
    rw [List.takeWhile_cons, List.dropWhile_cons]
    rcases hb : (GetBlock env cache h).1 with b | e | m
    · simp only [getBlockRangeEvents, hb, GoResult.isOk, GoResult.getD, if_pos,
        List.map_cons, List.cons_append, ih]
    · simp [getBlockRangeEvents, hb, GoResult.isOk, rangeTail]
    · simp [getBlockRangeEvents, hb, GoResult.isOk, rangeTail]

/-! ## Claim C6 -/

/-- C6: `GetBlockRange` visits exactly the heights of the inclusive range
between `start` and `end_`, ascending when `start ≤ end_` and descending
otherwise; it emits the spam-filtered block for each height of the
longest prefix on which `GetBlock` succeeds, and then delivers exactly
one value on the error channel: the first `GetBlock` error if one
occurred, else the nil sentinel after the whole range. -/
theorem C6_block_range_stream (env : RpcEnv) (cache : BlockCache)
    (start end_ t : Int) :
    (∀ h : Int, h ∈ rangeHeights start end_ ↔
      min start end_ ≤ h ∧ h ≤ max start end_) ∧
    (rangeHeights start end_).Pairwise
      (fun a b => if start ≤ end_ then a < b else b < a) ∧
    GetBlockRange env cache start end_ t =
      ((rangeHeights start end_).takeWhile fun h => ((GetBlock env cache h).1).isOk).map
        (fun h => RangeEvent.block
          (FilterSpammyBlock (((GetBlock env cache h).1).getD emptyBlock) t)) ++
      rangeTail env cache
        ((rangeHeights start end_).dropWhile fun h => ((GetBlock env cache h).1).isOk) :=
  ⟨fun h => mem_rangeHeights start end_ h, rangeHeights_pairwise start end_,
    getBlockRangeEvents_characterization env cache t (rangeHeights start end_)⟩

/-- C6 witness: over the cached blocks 2..4 the stream is the three
filtered blocks followed by the nil sentinel, in ascending order for
`(2, 4)` and descending order for `(4, 2)`. -/
theorem C6_witness :
    GetBlockRange rpcNotYet cache14 2 4 0 =
      [RangeEvent.block (mkBlock 2), RangeEvent.block (mkBlock 3),
       RangeEvent.block (mkBlock 4), RangeEvent.errOut none] ∧
    GetBlockRange rpcNotYet cache14 4 2 0 =
      [RangeEvent.block (mkBlock 4), RangeEvent.block (mkBlock 3),
       RangeEvent.block (mkBlock 2), RangeEvent.errOut none] := by
  constructor
  · exact ((C6_block_range_stream rpcNotYet cache14 2 4 0).2.2).trans (by decide)
  · exact ((C6_block_range_stream rpcNotYet cache14 4 2 0).2.2).trans (by decide)

end Lightwalletd
